import Mathlib

/-!
Verification of the cellar-door MCP server (`src/server.ts`, bin entry and
tests) against its natural-language specification.

The server layer (tool handlers, policy resolution, session identity cache)
is embedded directly from `src/src/server.ts` and `src/unnamed/part_000`
(the bin entry).  The marker codec, the admission policy engine, the
transfer continuity verifier and the one-shot entry helper live in the
external packages `cellar-door-exit` / `cellar-door-entry`; their sources
are not in this repository, so they are modelled from the specification
(each such definition carries a `Modelled from the spec:` doc comment).

Modelling conventions:
  - JSON values are the inductive `Json`; timestamps are `Int` (epoch
    seconds); JavaScript `undefined` field access is modelled with
    `Option`.
  - The external Signature Collaborator (key generation, signing,
    verification, content-derived marker ids) is kept abstract: every
    handler takes a `Collab` record of collaborator functions.
  - Fallible operations return `Except String`; a tool response carrying
    the MCP `isError` flag is modelled by a dedicated `error` constructor
    of the response type.
-/

/-- Closed enumeration of exit types (spec section 3, `ExitType`). -/
inductive ExitType
  | Voluntary
  | Forced
  | Emergency
  | KeyCompromise
deriving DecidableEq, Repr

/-- String rendering of an exit type, as serialized in JSON payloads. -/
def exitTypeStr : ExitType → String
  | .Voluntary => "Voluntary"
  | .Forced => "Forced"
  | .Emergency => "Emergency"
  | .KeyCompromise => "KeyCompromise"

/-- Parsing of the closed exit-type enum, as in the codec and the zod enum
of `src/server.ts`. -/
def parseExitType : String → Option ExitType
  | "Voluntary" => some .Voluntary
  | "Forced" => some .Forced
  | "Emergency" => some .Emergency
  | "KeyCompromise" => some .KeyCompromise
  | _ => none

/-- JSON values (the interchange format of the codec and of tool inputs). -/
inductive Json
  | null
  | bool (b : Bool)
  | num (n : Int)
  | str (s : String)
  | arr (xs : List Json)
  | obj (fields : List (String × Json))

mutual

/-- All string atoms occurring anywhere inside a JSON value. -/
def jsonStrings : Json → List String
  | .str s => [s]
  | .arr xs => jsonStringsList xs
  | .obj fs => jsonStringsFields fs
  | _ => []

/-- String atoms of a list of JSON values. -/
def jsonStringsList : List Json → List String
  | [] => []
  | x :: xs => jsonStrings x ++ jsonStringsList xs

/-- String atoms of the values of a JSON object field list. -/
def jsonStringsFields : List (String × Json) → List String
  | [] => []
  | (_, v) :: fs => jsonStrings v ++ jsonStringsFields fs

end

/-- Identity of the Signature Collaborator: DID plus keypair
(spec section 3, `Identity`). -/
structure Identity where
  did : String
  publicKey : String
  privateKey : String
deriving DecidableEq, Repr

/-- ExitMarker data model (spec section 3).  `lineage` and `stateSnapshot`
are optional modules whose content is opaque, kept as raw JSON. -/
structure ExitMarker where
  id : String
  subject : String
  origin : String
  exitType : ExitType
  timestamp : Int
  reason : Option String
  lineage : Option Json
  stateSnapshot : Option Json
  signature : String

/-- ArrivalMarker data model (spec section 3). -/
structure ArrivalMarker where
  exitMarkerId : String
  destination : String
  timestamp : Int
  signature : String
deriving DecidableEq, Repr

/-- Runtime view of an arrival value as JavaScript sees it after a plain
`JSON.parse`: every field may be absent (`undefined`). -/
structure ArrivalValue where
  exitMarkerId : Option String
  destination : Option String
  timestamp : Option Int
  signature : Option String
deriving DecidableEq, Repr

/-- View of a well-formed arrival marker as a runtime value. -/
def ArrivalMarker.toValue (a : ArrivalMarker) : ArrivalValue :=
  { exitMarkerId := some a.exitMarkerId
  , destination := some a.destination
  , timestamp := some a.timestamp
  , signature := some a.signature }

/-- AdmissionPolicy data model (spec section 3). -/
structure AdmissionPolicy where
  requireVerifiedDeparture : Bool
  allowedExitTypes : List ExitType
  maxAgeSeconds : Option Int
  requiredModules : List String
deriving DecidableEq, Repr

/-- AdmissionResult data model (spec section 3). -/
structure AdmissionResult where
  admitted : Bool
  reasons : List String
deriving DecidableEq, Repr

/-- Continuity sub-result of a transfer record (spec section 3). -/
structure Continuity where
  valid : Bool
  errors : List String
deriving DecidableEq, Repr

/-- TransferRecord data model (spec section 3).  `transferTime` is `none`
when the arrival timestamp is absent at runtime. -/
structure TransferRecord where
  verified : Bool
  transferTime : Option Int
  errors : List String
  continuity : Continuity
deriving DecidableEq, Repr

/-- Field lookup in a decoded JSON object (first match, as JS objects have
unique keys after `JSON.parse`). -/
def lookupField (fs : List (String × Json)) (k : String) : Option Json :=
  (fs.find? (fun p => p.1 == k)).map (fun p => p.2)

/-- Required string field of the codec. -/
def reqStr (fs : List (String × Json)) (k : String) : Except String String :=
  match lookupField fs k with
  | some (.str s) => .ok s
  | some _ => .error ("DecodeError: field " ++ k ++ " has wrong shape")
  | none => .error ("DecodeError: missing field " ++ k)

/-- Required numeric field of the codec. -/
def reqInt (fs : List (String × Json)) (k : String) : Except String Int :=
  match lookupField fs k with
  | some (.num n) => .ok n
  | some _ => .error ("DecodeError: field " ++ k ++ " has wrong shape")
  | none => .error ("DecodeError: missing field " ++ k)

/-- Optional string field of the codec. -/
def optStr (fs : List (String × Json)) (k : String) : Except String (Option String) :=
  match lookupField fs k with
  | none => .ok none
  | some (.str s) => .ok (some s)
  | some _ => .error ("DecodeError: field " ++ k ++ " has wrong shape")

/-- Modelled from the spec: the Marker Codec `decode` of `cellar-door-exit`
(spec section 4.1), whose source is not in this repository.  Decoding fails
with a `DecodeError` when required fields are missing, of the wrong shape,
or the `exitType` does not match the closed enum. -/
def fromJSON (j : Json) : Except String ExitMarker :=
  match j with
  | .obj fs => do
    let id ← reqStr fs "id"
    let subject ← reqStr fs "subject"
    let origin ← reqStr fs "origin"
    let etStr ← reqStr fs "exitType"
    let et ← match parseExitType etStr with
      | some et => Except.ok et
      | none => Except.error ("DecodeError: unknown exitType " ++ etStr)
    let timestamp ← reqInt fs "timestamp"
    let reason ← optStr fs "reason"
    let signature ← reqStr fs "signature"
    Except.ok
      { id := id, subject := subject, origin := origin, exitType := et
      , timestamp := timestamp, reason := reason
      , lineage := lookupField fs "lineage"
      , stateSnapshot := lookupField fs "stateSnapshot"
      , signature := signature }
  | _ => .error "DecodeError: marker must be a JSON object"

/-- Modelled from the spec: presence of an optional module on a marker
(spec section 4.2, step 4). -/
def hasModule (m : ExitMarker) (name : String) : Bool :=
  if name = "lineage" then m.lineage.isSome
  else if name = "stateSnapshot" then m.stateSnapshot.isSome
  else false

/-- Modelled from the spec: the Admission Policy Engine
`evaluate(exitMarker, policy) -> AdmissionResult` of `cellar-door-entry`
(spec section 4.2), whose source is not in this repository.  All checks
run; failures accumulate in a fixed order; `admitted = reasons.isEmpty`.
The Signature Collaborator verify is the abstract argument `sv`. -/
def evaluateAdmission (sv : ExitMarker → Bool) (m : ExitMarker)
    (p : AdmissionPolicy) (now : Int) : AdmissionResult :=
  let sigReasons := if p.requireVerifiedDeparture && !(sv m) then ["signature invalid"] else []
  let typeReasons :=
    if !p.allowedExitTypes.isEmpty && !(p.allowedExitTypes.contains m.exitType)
    then ["exit type not permitted"] else []
  let ageReasons :=
    match p.maxAgeSeconds with
    | some maxAge => if now - m.timestamp > maxAge then ["marker expired"] else []
    | none => []
  let moduleReasons := p.requiredModules.filterMap
    (fun name => if hasModule m name then none else some ("missing required module: " ++ name))
  let reasons := sigReasons ++ typeReasons ++ ageReasons ++ moduleReasons
  { admitted := reasons.isEmpty, reasons := reasons }

/-- Modelled from the spec: the `OPEN_DOOR` preset (spec section 3): only
signature verification required. -/
def OPEN_DOOR : AdmissionPolicy :=
  { requireVerifiedDeparture := true
  , allowedExitTypes := []
  , maxAgeSeconds := none
  , requiredModules := [] }

/-- Modelled from the spec: the `STRICT` preset (spec section 3):
`Voluntary` only, age < 24h, both `lineage` and `stateSnapshot` required. -/
def STRICT : AdmissionPolicy :=
  { requireVerifiedDeparture := true
  , allowedExitTypes := [.Voluntary]
  , maxAgeSeconds := some 86400
  , requiredModules := ["lineage", "stateSnapshot"] }

/-- Modelled from the spec: the `EMERGENCY_ONLY` preset (spec section 3):
`exitType == Emergency` only. -/
def EMERGENCY_ONLY : AdmissionPolicy :=
  { requireVerifiedDeparture := true
  , allowedExitTypes := [.Emergency]
  , maxAgeSeconds := none
  , requiredModules := [] }

/-- Modelled from the spec: JavaScript comparison `a >= b` where `a` may be
`undefined` (an undefined operand makes the comparison false). -/
def jsGe (a : Option Int) (b : Int) : Bool :=
  match a with
  | some t => decide (t ≥ b)
  | none => false

/-- Modelled from the spec: the Transfer Continuity Verifier
`verifyTransfer(exitMarker, arrivalMarker) -> TransferRecord` of
`cellar-door-entry` (spec section 4.3), whose source is not in this
repository.  Signature failures go to `errors`; reference and ordering
failures go to `continuity.errors`; `continuity.valid` is true iff no
continuity error; `verified` is true iff all checks pass.  The arrival is
a runtime value, since the server passes it unvalidated (JS field access
on a missing field yields `undefined`, modelled as `none`). -/
def verifyTransfer (sv : ExitMarker → Bool) (av : ArrivalValue → Bool)
    (e : ExitMarker) (a : ArrivalValue) : TransferRecord :=
  let sigErrors :=
    (if sv e then [] else ["exit marker signature invalid"])
      ++ (if av a then [] else ["arrival marker signature invalid"])
  let contErrors :=
    (if a.exitMarkerId = some e.id then [] else ["arrival does not reference this exit"])
      ++ (if jsGe a.timestamp e.timestamp then [] else ["arrival precedes departure"])
  { verified := sigErrors.isEmpty && contErrors.isEmpty
  , transferTime := a.timestamp.map (fun t => t - e.timestamp)
  , errors := sigErrors
  , continuity := { valid := contErrors.isEmpty, errors := contErrors } }

/-- Policy preset names: the closed set of externally selectable policies
(the zod enum of `src/server.ts` and the `serverPolicy` option type). -/
inductive PolicyName
  | OPEN_DOOR
  | STRICT
  | EMERGENCY_ONLY
deriving DecidableEq, Repr

/-- String rendering of a policy name (as echoed in tool responses). -/
def policyNameStr : PolicyName → String
  | .OPEN_DOOR => "OPEN_DOOR"
  | .STRICT => "STRICT"
  | .EMERGENCY_ONLY => "EMERGENCY_ONLY"

/-- Validation of a raw policy-name string against the closed enum (the zod
`z.enum([..])` of `src/server.ts` and the cast in the bin entry). -/
def parsePolicyName : String → Option PolicyName
  | "OPEN_DOOR" => some .OPEN_DOOR
  | "STRICT" => some .STRICT
  | "EMERGENCY_ONLY" => some .EMERGENCY_ONLY
  | _ => none

/-- The preset table `admissionPresets` of `src/server.ts` (lines 222-226). -/
def admissionPresets : PolicyName → AdmissionPolicy
  | .OPEN_DOOR => OPEN_DOOR
  | .STRICT => STRICT
  | .EMERGENCY_ONLY => EMERGENCY_ONLY

/-- The `CreateServerOptions` of `src/server.ts`: optional server-side
admission policy override. -/
structure ServerOptions where
  serverPolicy : Option PolicyName
deriving DecidableEq, Repr

/-- Policy resolution of the `verify_and_admit` tool (`src/server.ts` line
250): `options.serverPolicy ?? admissionPolicy ?? "OPEN_DOOR"`. -/
def resolveVA (opts : ServerOptions) (admissionPolicy : Option PolicyName) : PolicyName :=
  opts.serverPolicy.getD (admissionPolicy.getD .OPEN_DOOR)

/-- Policy resolution of the `evaluate_admission` tool (`src/server.ts`
line 317): `options.serverPolicy ?? policy` (the caller policy is a
required parameter there). -/
def resolveEA (opts : ServerOptions) (policy : PolicyName) : PolicyName :=
  opts.serverPolicy.getD policy

/-- The bin entry of the repository (`src/unnamed/part_000`, lines 8-12):
the environment policy is adopted only when it is a member of the preset
list; otherwise the option is silently left unset. -/
def policyFromEnv (envPolicy : Option String) : Option PolicyName :=
  match envPolicy with
  | some s =>
    if ["OPEN_DOOR", "STRICT", "EMERGENCY_ONLY"].contains s
    then parsePolicyName s
    else none
  | none => none

/-- Server options built by the bin entry from the environment
(`src/unnamed/part_000`). -/
def mainServerOptions (envPolicy : Option String) : ServerOptions :=
  { serverPolicy := policyFromEnv envPolicy }

/-- The external collaborators consumed by the server (spec section 6):
identity generation (keyed by a freshness counter so that repeated calls
yield the successive identities the collaborator would produce),
content-derived marker ids, marker signing (unsigned marker and private
key), arrival signing by the receiving platform, and the two signature
verifications.  All are abstract. -/
structure Collab where
  gen : Nat → Identity
  mkId : String → String → Int → String
  signM : ExitMarker → String → String
  entrySig : String → String → Int → String
  sv : ExitMarker → Bool
  av : ArrivalValue → Bool

/-- Per-session mutable state of `src/server.ts`: the
`sessionIdentity` slot (line 42) plus the freshness counter feeding the
abstract identity generator. -/
structure SessionState where
  sessionIdentity : Option Identity
  fresh : Nat
deriving DecidableEq, Repr

/-- Modelled from the spec: `createMarker` of `cellar-door-exit` -
builds an unsigned marker with a content-derived id; `src/server.ts`
passes `subject`, `origin` and `exitType` only, so `reason`, `lineage`
and `stateSnapshot` stay absent. -/
def createMarker (c : Collab) (subject origin : String) (et : ExitType)
    (reason : Option String) (now : Int) : ExitMarker :=
  { id := c.mkId subject origin now, subject := subject, origin := origin
  , exitType := et, timestamp := now, reason := reason
  , lineage := none, stateSnapshot := none, signature := "" }

/-- Modelled from the spec: `signMarker` of `cellar-door-exit` - attaches
the collaborator signature over the unsigned marker. -/
def signMarker (c : Collab) (m : ExitMarker) (privateKey : String) : ExitMarker :=
  { m with signature := c.signM m privateKey }

/-- Modelled from the spec: `quickExit` of `cellar-door-exit` - one-shot
create and sign.  The call in `src/server.ts` (line 85) passes only
`origin`, `exitType` and `reason`, so the helper generates its own fresh
identity; per the test suite the marker subject is that identity DID. -/
def quickExit (c : Collab) (fresh : Nat) (origin : String)
    (exitType : Option ExitType) (reason : Option String) (now : Int) :
    Identity × ExitMarker :=
  let i := c.gen fresh
  let m := createMarker c i.did origin (exitType.getD .Voluntary) reason now
  (i, signMarker c m i.privateKey)

/-- Response of the `generate_identity` tool (`src/server.ts` lines 49-68):
the DID and a fixed message only. -/
structure GenIdResp where
  did : String
  message : String
deriving DecidableEq, Repr

/-- The fixed message of the `generate_identity` response. -/
def genIdMessage : String :=
  "Identity generated and stored server-side for this session. Use create_exit_marker or quick_exit to sign markers. Private key material is not exposed."

/-- Handler of the `generate_identity` tool (`src/server.ts` lines 45-69):
generates an identity, stores it in the session slot, returns DID and
message. -/
def generate_identity_handler (c : Collab) (st : SessionState) :
    GenIdResp × SessionState :=
  let identity := c.gen st.fresh
  ( { did := identity.did, message := genIdMessage }
  , { sessionIdentity := some identity, fresh := st.fresh + 1 } )

/-- Response of the `quick_exit` tool (`src/server.ts` lines 98-113). -/
structure QuickExitResp where
  marker : ExitMarker
  signerDid : String
  verified : Bool

/-- Handler of the `quick_exit` tool (`src/server.ts` lines 83-114): calls
`quickExit` (which generates its own identity), stores that identity in
the session slot, verifies the fresh marker and returns it. -/
def quick_exit_handler (c : Collab) (st : SessionState) (origin : String)
    (exitType : Option ExitType) (reason : Option String) (now : Int) :
    QuickExitResp × SessionState :=
  let r := quickExit c st.fresh origin exitType reason now
  ( { marker := r.2, signerDid := r.1.did, verified := c.sv r.2 }
  , { sessionIdentity := some r.1, fresh := st.fresh + 1 } )

/-- Response of the `create_exit_marker` tool (`src/server.ts` lines
148-162). -/
structure CreateExitResp where
  marker : ExitMarker
  signerDid : String

/-- Handler of the `create_exit_marker` tool (`src/server.ts` lines
129-163): uses the session identity, generating one only when the slot is
empty; builds the marker with `subject := origin` (the `reason` input is
accepted but not passed to `createMarker` in the source) and signs with
the session identity. -/
def create_exit_marker_handler (c : Collab) (st : SessionState)
    (origin : String) (exitType : Option ExitType) (reason : Option String)
    (now : Int) : CreateExitResp × SessionState :=
  let idSt :=
    match st.sessionIdentity with
    | some i => (i, st)
    | none =>
      let i := c.gen st.fresh
      (i, { sessionIdentity := some i, fresh := st.fresh + 1 })
  let et := exitType.getD .Voluntary
  let marker := createMarker c origin origin et none now
  let signed := signMarker c marker idSt.1.privateKey
  ({ marker := signed, signerDid := idSt.1.did }, idSt.2)

/-- Response of the `verify_exit_marker` tool (`src/server.ts` lines
181-216); the `error` constructor carries the MCP `isError` flag. -/
inductive VerifyExitResp
  | ok (valid : Bool) (subject : String) (exitType : ExitType)
      (timestamp : Int) (id : String)
  | error (message : String)
deriving DecidableEq, Repr

/-- Handler of the `verify_exit_marker` tool (`src/server.ts` lines
173-217): decodes the marker, verifies it, echoes public fields; a decode
failure is caught and returned with the error flag. -/
def verify_exit_marker_handler (c : Collab) (markerJson : Json) : VerifyExitResp :=
  match fromJSON markerJson with
  | .ok m => .ok (c.sv m) m.subject m.exitType m.timestamp m.id
  | .error e => .error e

/-- Modelled from the spec: `quickEntry` of `cellar-door-entry` - decodes
the exit marker again, mints a signed arrival marker referencing it, and
reports continuity (spec sections 2, 4.3 and design note on the second
verification pass). -/
def quickEntry (c : Collab) (exitMarkerJson : Json) (destination : String)
    (now : Int) : Except String (ArrivalMarker × ExitMarker × Continuity) :=
  match fromJSON exitMarkerJson with
  | .error e => .error e
  | .ok e =>
    let a : ArrivalMarker :=
      { exitMarkerId := e.id, destination := destination, timestamp := now
      , signature := c.entrySig e.id destination now }
    let r := verifyTransfer c.sv c.av e a.toValue
    .ok (a, e, r.continuity)

/-- Response of the `verify_and_admit` tool (`src/server.ts` lines
253-296); `error` carries the MCP `isError` flag, the two other
constructors are the normal structured payloads. -/
inductive VAResult
  | notAdmitted (reasons : List String)
  | admitted (arrivalMarker : ArrivalMarker) (exitMarkerId : String)
      (continuity : Continuity)
  | error (message : String)
deriving DecidableEq, Repr

/-- Handler of the `verify_and_admit` tool (`src/server.ts` lines
246-297): resolves the policy (`serverPolicy ?? admissionPolicy ??
OPEN_DOOR`), decodes the exit marker, evaluates admission; when not
admitted it returns the structured refusal, otherwise it mints an arrival
via `quickEntry`.  `now` is the ambient clock at call time - the source
passes no time to `evaluateAdmission`. -/
def verify_and_admit_handler (c : Collab) (opts : ServerOptions) (now : Int)
    (exitMarkerJson : Json) (destination : String)
    (admissionPolicy : Option PolicyName) : VAResult :=
  let policyName := resolveVA opts admissionPolicy
  match fromJSON exitMarkerJson with
  | .error e => .error e
  | .ok exitMarker =>
    let admission := evaluateAdmission c.sv exitMarker (admissionPresets policyName) now
    if admission.admitted then
      match quickEntry c exitMarkerJson destination now with
      | .error e => .error e
      | .ok r => .admitted r.1 r.2.1.id r.2.2
    else
      .notAdmitted admission.reasons

/-- Response of the `evaluate_admission` tool (`src/server.ts` lines
320-337): the admission result spread together with the effective policy
name; `error` carries the MCP `isError` flag. -/
inductive EAResult
  | ok (result : AdmissionResult) (policy : PolicyName)
  | error (message : String)
deriving DecidableEq, Repr

/-- Handler of the `evaluate_admission` tool (`src/server.ts` lines
314-339): resolves `serverPolicy ?? policy`, decodes the marker and
evaluates; `now` is the ambient clock at call time - the source passes no
time to `evaluateAdmission`. -/
def evaluate_admission_handler (c : Collab) (opts : ServerOptions)
    (now : Int) (exitMarkerJson : Json) (policy : PolicyName) : EAResult :=
  let effectivePolicy := resolveEA opts policy
  match fromJSON exitMarkerJson with
  | .error e => .error e
  | .ok m => .ok (evaluateAdmission c.sv m (admissionPresets effectivePolicy) now) effectivePolicy

/-- Request-level wrapper of `evaluate_admission`: the raw policy string
is validated against the closed zod enum by the MCP layer before the
handler runs; an unknown name is rejected with a validation error
surfaced to the caller. -/
def evaluate_admission_request (c : Collab) (opts : ServerOptions)
    (now : Int) (exitMarkerJson : Json) (rawPolicy : String) : EAResult :=
  match parsePolicyName rawPolicy with
  | none => .error ("Invalid enum value: " ++ rawPolicy)
  | some p => evaluate_admission_handler c opts now exitMarkerJson p

/-- JavaScript view of a parsed arrival JSON value: field access on the
`JSON.parse` result of `src/server.ts` line 353 (a non-object or a
missing field yields `undefined`, modelled as `none`). -/
def arrivalOfJson (j : Json) : ArrivalValue :=
  match j with
  | .obj fs =>
    { exitMarkerId :=
        match lookupField fs "exitMarkerId" with
        | some (.str s) => some s
        | _ => none
    , destination :=
        match lookupField fs "destination" with
        | some (.str s) => some s
        | _ => none
    , timestamp :=
        match lookupField fs "timestamp" with
        | some (.num n) => some n
        | _ => none
    , signature :=
        match lookupField fs "signature" with
        | some (.str s) => some s
        | _ => none }
  | _ => { exitMarkerId := none, destination := none, timestamp := none, signature := none }

/-- Response of the `verify_transfer` tool (`src/server.ts` lines
355-371); `error` carries the MCP `isError` flag. -/
inductive VTResult
  | ok (verified : Bool) (transferTime : Option Int) (errors : List String)
      (continuity : Continuity)
  | error (message : String)
deriving DecidableEq, Repr

/-- Handler of the `verify_transfer` tool (`src/server.ts` lines 350-383):
the exit marker goes through the codec `fromJSON`; the arrival marker is
plain `JSON.parse` output handed to `verifyTransfer` with no shape
validation. -/
def verify_transfer_handler (c : Collab) (exitMarkerJson arrivalMarkerJson : Json) :
    VTResult :=
  match fromJSON exitMarkerJson with
  | .error e => .error e
  | .ok e =>
    let r := verifyTransfer c.sv c.av e (arrivalOfJson arrivalMarkerJson)
    .ok r.verified r.transferTime r.errors r.continuity

/-- Concrete collaborator instance used by concrete evaluations: the
identity generator is keyed by the counter, signing and verification are
fixed, and verification always succeeds. -/
def collabW : Collab :=
  { gen := fun n =>
      { did := "did:key:z" ++ toString n
      , publicKey := "pub" ++ toString n
      , privateKey := "priv" ++ toString n }
  , mkId := fun s _ _ => "exit:" ++ s
  , signM := fun _ _ => "sigw"
  , entrySig := fun _ _ _ => "asigw"
  , sv := fun _ => true
  , av := fun _ => true }

/-- Concrete well-formed exit marker JSON: voluntary, timestamp 0, both
optional modules present. -/
def goodMarkerJson : Json :=
  .obj [ ("id", .str "exit:good")
       , ("subject", .str "did:example:agent")
       , ("origin", .str "did:example:agent")
       , ("exitType", .str "Voluntary")
       , ("timestamp", .num 0)
       , ("signature", .str "sigini")
       , ("lineage", .str "lin")
       , ("stateSnapshot", .str "snap") ]

/-- The decoded form of `goodMarkerJson`. -/
def goodMarker : ExitMarker :=
  { id := "exit:good", subject := "did:example:agent"
  , origin := "did:example:agent", exitType := .Voluntary, timestamp := 0
  , reason := none, lineage := some (.str "lin")
  , stateSnapshot := some (.str "snap"), signature := "sigini" }

/-- Concrete marker violating every STRICT check when verification fails:
forced exit, both modules absent. -/
def badMarker : ExitMarker :=
  { goodMarker with exitType := .Forced, lineage := none, stateSnapshot := none }

/-- String atoms of the serialized marker object inside a tool response
(the fields `toJSON` emits, spec section 3). -/
def markerAtoms (m : ExitMarker) : List String :=
  [m.id, m.subject, m.origin, exitTypeStr m.exitType]
    ++ m.reason.toList
    ++ (match m.lineage with | some j => jsonStrings j | none => [])
    ++ (match m.stateSnapshot with | some j => jsonStrings j | none => [])
    ++ [m.signature]

/-- String atoms of the `generate_identity` response. -/
def genIdAtoms (r : GenIdResp) : List String := [r.did, r.message]

/-- String atoms of the `quick_exit` response. -/
def quickExitAtoms (r : QuickExitResp) : List String :=
  markerAtoms r.marker ++ [r.signerDid]

/-- String atoms of the `create_exit_marker` response. -/
def createExitAtoms (r : CreateExitResp) : List String :=
  markerAtoms r.marker ++ [r.signerDid]

/-- String atoms of the `verify_exit_marker` response. -/
def verifyExitAtoms : VerifyExitResp → List String
  | .ok _ subject et _ id => [subject, exitTypeStr et, id]
  | .error e => [e]

/-- String atoms of the `verify_and_admit` response. -/
def vaAtoms : VAResult → List String
  | .notAdmitted rs => rs
  | .admitted a eid cont => [a.exitMarkerId, a.destination, a.signature, eid] ++ cont.errors
  | .error e => [e]

/-- String atoms of the `evaluate_admission` response. -/
def eaAtoms : EAResult → List String
  | .ok r p => r.reasons ++ [policyNameStr p]
  | .error e => [e]

/-- String atoms of the `verify_transfer` response. -/
def vtAtoms : VTResult → List String
  | .ok _ _ errs cont => errs ++ cont.errors
  | .error e => [e]

/-- String atoms of the constant `list_admission_policies` response
(`src/server.ts` lines 391-420): descriptions and spread preset fields. -/
def listPoliciesAtoms : List String :=
  [ "Accept everything with a valid signature"
  , "Voluntary only, <24h old, requires lineage + stateSnapshot modules"
  , "Accept only emergency exits"
  , "lineage", "stateSnapshot", "Voluntary", "Emergency" ]

/-- Fixed strings the server itself can emit in responses. -/
def constStrings : List String :=
  [ genIdMessage
  , "Voluntary", "Forced", "Emergency", "KeyCompromise"
  , "OPEN_DOOR", "STRICT", "EMERGENCY_ONLY"
  , "signature invalid", "exit type not permitted", "marker expired"
  , "missing required module: lineage", "missing required module: stateSnapshot"
  , "exit marker signature invalid", "arrival marker signature invalid"
  , "arrival does not reference this exit", "arrival precedes departure" ]
    ++ listPoliciesAtoms

example : fromJSON goodMarkerJson = Except.ok goodMarker := rfl

/-- Claim C1: whenever a deployment-configured `serverPolicy` is set, both
`verify_and_admit` and `evaluate_admission` resolve to exactly that
policy, and the caller-supplied policy name has no influence: two runs of
either handler differing only in the caller policy name are identical. -/
theorem spec_server_policy_overrides_caller
    (c : Collab) (opts : ServerOptions) (now : Int) (j : Json) (d : String)
    (cp cq : Option PolicyName) (p q : PolicyName) (sp : PolicyName)
    (h : opts.serverPolicy = some sp) :
    resolveVA opts cp = sp ∧ resolveEA opts p = sp
    ∧ verify_and_admit_handler c opts now j d cp
      = verify_and_admit_handler c opts now j d cq
    ∧ evaluate_admission_handler c opts now j p
      = evaluate_admission_handler c opts now j q := by
  refine ⟨?_, ?_, ?_, ?_⟩ <;>
    simp [resolveVA, resolveEA, verify_and_admit_handler,
      evaluate_admission_handler, h]

/-- Claim C1 witness: with `serverPolicy = EMERGENCY_ONLY`, a caller
asking for `OPEN_DOOR` (or anything else) still gets `EMERGENCY_ONLY`. -/
theorem spec_server_policy_overrides_caller_witness :
    resolveVA { serverPolicy := some .EMERGENCY_ONLY } (some .OPEN_DOOR) = .EMERGENCY_ONLY
    ∧ resolveEA { serverPolicy := some .EMERGENCY_ONLY } .OPEN_DOOR = .EMERGENCY_ONLY
    ∧ verify_and_admit_handler collabW { serverPolicy := some .EMERGENCY_ONLY } 0
        goodMarkerJson "did:example:dest" (some .OPEN_DOOR)
      = verify_and_admit_handler collabW { serverPolicy := some .EMERGENCY_ONLY } 0
        goodMarkerJson "did:example:dest" (some .STRICT)
    ∧ evaluate_admission_handler collabW { serverPolicy := some .EMERGENCY_ONLY } 0
        goodMarkerJson .OPEN_DOOR
      = evaluate_admission_handler collabW { serverPolicy := some .EMERGENCY_ONLY } 0
        goodMarkerJson .STRICT :=
  spec_server_policy_overrides_caller collabW _ 0 goodMarkerJson
    "did:example:dest" _ _ _ _ .EMERGENCY_ONLY rfl

/-- Claim C4: with no `serverPolicy` and no caller-supplied policy the
resolved policy is exactly the `OPEN_DOOR` preset, and the
`verify_and_admit` handler behaves identically to one explicitly given
`OPEN_DOOR` - admission checks are never skipped. -/
theorem spec_default_policy_open_door (c : Collab) (now : Int) (j : Json) (d : String) :
    resolveVA { serverPolicy := none } none = PolicyName.OPEN_DOOR
    ∧ admissionPresets (resolveVA { serverPolicy := none } none) = OPEN_DOOR
    ∧ verify_and_admit_handler c { serverPolicy := none } now j d none
      = verify_and_admit_handler c { serverPolicy := none } now j d (some .OPEN_DOOR) :=
  ⟨rfl, rfl, rfl⟩

/-- Claim C2 counterexample: the deployment-configured policy name
`LOCKDOWN` is not one of the three presets, yet resolution does not fail:
the bin entry silently drops it, the server option stays unset, admission
resolves to the `OPEN_DOOR` default, and a request completes normally
with no error - refuting that every unknown supplied policy name fails
with `UnknownPolicyError`. -/
theorem spec_unknown_policy_counterexample :
    policyFromEnv (some "LOCKDOWN") = none
    ∧ mainServerOptions (some "LOCKDOWN") = { serverPolicy := none }
    ∧ resolveVA (mainServerOptions (some "LOCKDOWN")) none = PolicyName.OPEN_DOOR
    ∧ evaluate_admission_request collabW (mainServerOptions (some "LOCKDOWN")) 0
        goodMarkerJson "OPEN_DOOR"
      = EAResult.ok { admitted := true, reasons := [] } .OPEN_DOOR :=
  ⟨rfl, rfl, rfl, rfl⟩

/-- Claim C2 amended: a caller-supplied policy name outside the three
presets is rejected at the validation boundary with an error surfaced to
the caller, but a deployment-configured name outside the presets is
silently ignored: the server option stays unset and resolution falls back
to the caller name or the `OPEN_DOOR` default. -/
theorem spec_unknown_policy_amended
    (c : Collab) (opts : ServerOptions) (now : Int) (j : Json)
    (caller cfg : String) (cp : Option PolicyName)
    (hcaller : parsePolicyName caller = none)
    (hcfg : parsePolicyName cfg = none) :
    evaluate_admission_request c opts now j caller
      = .error ("Invalid enum value: " ++ caller)
    ∧ policyFromEnv (some cfg) = none
    ∧ resolveVA (mainServerOptions (some cfg)) cp
      = resolveVA { serverPolicy := none } cp := by
  refine ⟨?_, ?_, ?_⟩
  · simp [evaluate_admission_request, hcaller]
  · simp [policyFromEnv, hcfg]
  · simp [mainServerOptions, policyFromEnv, hcfg]

/-- Claim C2 amended witness: concrete unknown names on both paths. -/
theorem spec_unknown_policy_amended_witness :
    evaluate_admission_request collabW { serverPolicy := none } 0 goodMarkerJson "LOCKDOWN"
      = .error ("Invalid enum value: " ++ "LOCKDOWN")
    ∧ policyFromEnv (some "FORTRESS") = none
    ∧ resolveVA (mainServerOptions (some "FORTRESS")) (some .STRICT)
      = resolveVA { serverPolicy := none } (some .STRICT) :=
  spec_unknown_policy_amended collabW _ 0 goodMarkerJson "LOCKDOWN" "FORTRESS"
    (some .STRICT) rfl rfl

/-- Claim C3: when the decoded exit marker fails admission, the
`verify_and_admit` handler returns the normal structured refusal (the
`notAdmitted` payload with the accumulated reasons) - not the `error`
constructor that models the MCP `isError` flag - and no arrival marker is
created, signed or returned. -/
theorem spec_failed_admission_structured_result
    (c : Collab) (opts : ServerOptions) (now : Int) (j : Json) (d : String)
    (cp : Option PolicyName) (m : ExitMarker)
    (hdec : fromJSON j = Except.ok m)
    (hfail : (evaluateAdmission c.sv m (admissionPresets (resolveVA opts cp)) now).admitted = false) :
    verify_and_admit_handler c opts now j d cp
      = VAResult.notAdmitted
          (evaluateAdmission c.sv m (admissionPresets (resolveVA opts cp)) now).reasons := by
  unfold verify_and_admit_handler
  rw [hdec]
  simp [hfail]

/-- Claim C3 witness: a voluntary marker refused under `EMERGENCY_ONLY`
yields the structured refusal. -/
theorem spec_failed_admission_structured_result_witness :
    verify_and_admit_handler collabW { serverPolicy := none } 0 goodMarkerJson
      "did:example:dest" (some .EMERGENCY_ONLY)
      = VAResult.notAdmitted
          (evaluateAdmission collabW.sv goodMarker
            (admissionPresets (resolveVA { serverPolicy := none } (some .EMERGENCY_ONLY))) 0).reasons :=
  spec_failed_admission_structured_result collabW _ 0 goodMarkerJson
    "did:example:dest" _ goodMarker rfl rfl

/-- Claim C5 counterexample: the `evaluate_admission` operation does not
take the evaluation time from its request - the source calls
`evaluateAdmission` with no `now` argument - so the same request (same
marker, same policy) evaluated at two ambient clock times yields
different results, refuting that the operation is a function of the
request-supplied marker, policy and time alone. -/
theorem spec_now_ambient_counterexample :
    evaluate_admission_handler collabW { serverPolicy := none } 0 goodMarkerJson .STRICT
      ≠ evaluate_admission_handler collabW { serverPolicy := none } 1000000 goodMarkerJson .STRICT := by
  decide

/-- Claim C5 amended: the admission engine itself is pure and
deterministic given `now`, but the tool passes no `now`: the handler
result is exactly the engine evaluated at the ambient clock time of the
call, so identical requests may differ across call times. -/
theorem spec_now_explicit_amended
    (c : Collab) (opts : ServerOptions) (t : Int) (j : Json) (p : PolicyName)
    (m : ExitMarker) (hdec : fromJSON j = Except.ok m) :
    evaluate_admission_handler c opts t j p
      = EAResult.ok (evaluateAdmission c.sv m (admissionPresets (resolveEA opts p)) t)
          (resolveEA opts p) := by
  unfold evaluate_admission_handler
  rw [hdec]

/-- Claim C5 amended witness: concrete evaluation at ambient time 0. -/
theorem spec_now_explicit_amended_witness :
    evaluate_admission_handler collabW { serverPolicy := none } 0 goodMarkerJson .STRICT
      = EAResult.ok
          (evaluateAdmission collabW.sv goodMarker
            (admissionPresets (resolveEA { serverPolicy := none } .STRICT)) 0)
          (resolveEA { serverPolicy := none } .STRICT) :=
  spec_now_explicit_amended collabW _ 0 goodMarkerJson .STRICT goodMarker rfl

/-- Claim C6: evidence of the divergence.  After `generate_identity`
caches an identity, `quick_exit` does not sign with the cached identity:
it generates and stores a fresh one (its own tool description says a new
identity is generated only if none exists), while `create_exit_marker`
from the same state does reuse the cached identity.  Evaluated on the
concrete collaborator at the failing input. -/
theorem spec_quick_exit_regenerates_identity :
    (generate_identity_handler collabW { sessionIdentity := none, fresh := 0 }).2.sessionIdentity
      = some (collabW.gen 0)
    ∧ (quick_exit_handler collabW
        (generate_identity_handler collabW { sessionIdentity := none, fresh := 0 }).2
        "did:example:a" none none 0).1.signerDid = (collabW.gen 1).did
    ∧ (collabW.gen 1).did ≠ (collabW.gen 0).did
    ∧ (quick_exit_handler collabW
        (generate_identity_handler collabW { sessionIdentity := none, fresh := 0 }).2
        "did:example:a" none none 0).2.sessionIdentity = some (collabW.gen 1)
    ∧ (create_exit_marker_handler collabW
        (generate_identity_handler collabW { sessionIdentity := none, fresh := 0 }).2
        "did:example:a" none none 0).1.signerDid = (collabW.gen 0).did := by
  refine ⟨rfl, rfl, ?_, rfl, rfl⟩
  decide

/-- Helper: a list is non-empty iff `isEmpty` is `false`. -/
theorem list_isEmpty_false_iff {α : Type} (l : List α) : l.isEmpty = false ↔ l ≠ [] := by
  cases l <;> simp

/-- Claim C7: for every policy and marker, `admitted` is `false` iff
`reasons` is non-empty; when a check fails its reason is present (every
failed check is listed, not only the first); and `reasons` is exactly the
concatenation of the four checks in their fixed evaluation order. -/
theorem spec_admitted_iff_reasons_empty
    (sv : ExitMarker → Bool) (m : ExitMarker) (p : AdmissionPolicy) (now : Int) :
    ((evaluateAdmission sv m p now).admitted = false
      ↔ (evaluateAdmission sv m p now).reasons ≠ [])
    ∧ (p.requireVerifiedDeparture = true → sv m = false →
        "signature invalid" ∈ (evaluateAdmission sv m p now).reasons)
    ∧ (p.allowedExitTypes ≠ [] → m.exitType ∉ p.allowedExitTypes →
        "exit type not permitted" ∈ (evaluateAdmission sv m p now).reasons)
    ∧ (∀ a, p.maxAgeSeconds = some a → now - m.timestamp > a →
        "marker expired" ∈ (evaluateAdmission sv m p now).reasons)
    ∧ (∀ name, name ∈ p.requiredModules → hasModule m name = false →
        ("missing required module: " ++ name) ∈ (evaluateAdmission sv m p now).reasons)
    ∧ (evaluateAdmission sv m p now).reasons
      = (if p.requireVerifiedDeparture && !(sv m) then ["signature invalid"] else [])
        ++ (if !p.allowedExitTypes.isEmpty && !(p.allowedExitTypes.contains m.exitType)
            then ["exit type not permitted"] else [])
        ++ (match p.maxAgeSeconds with
            | some maxAge => if now - m.timestamp > maxAge then ["marker expired"] else []
            | none => [])
        ++ p.requiredModules.filterMap
            (fun name => if hasModule m name then none
              else some ("missing required module: " ++ name)) := by
  refine ⟨?_, ?_, ?_, ?_, ?_, rfl⟩
  · rw [show (evaluateAdmission sv m p now).admitted
        = (evaluateAdmission sv m p now).reasons.isEmpty from rfl]
    exact list_isEmpty_false_iff _
  · intro hreq hsv
    simp [evaluateAdmission, hreq, hsv]
  · intro hne hnm
    have h1 : p.allowedExitTypes.isEmpty = false := (list_isEmpty_false_iff _).mpr hne
    have h2 : p.allowedExitTypes.contains m.exitType = false := by
      simpa using hnm
    simp [evaluateAdmission, h1, h2]
    exact Or.inl hnm
  · intro a ha hgt
    simp [evaluateAdmission, ha, hgt]
  · intro name hmem hmod
    have : ("missing required module: " ++ name)
        ∈ p.requiredModules.filterMap
            (fun n => if hasModule m n then none
              else some ("missing required module: " ++ n)) := by
      rw [List.mem_filterMap]
      exact ⟨name, hmem, by simp [hmod]⟩
    simp only [evaluateAdmission, List.mem_append]
    exact Or.inr this

/-- Claim C7 witness: with failing verification, a forced old marker with
no modules under STRICT accumulates the expired and signature reasons and
is not admitted. -/
theorem spec_admitted_iff_reasons_empty_witness :
    ((evaluateAdmission (fun _ => false) badMarker STRICT 200000).admitted = false
      ↔ (evaluateAdmission (fun _ => false) badMarker STRICT 200000).reasons ≠ [])
    ∧ "signature invalid" ∈ (evaluateAdmission (fun _ => false) badMarker STRICT 200000).reasons
    ∧ "exit type not permitted" ∈ (evaluateAdmission (fun _ => false) badMarker STRICT 200000).reasons
    ∧ "marker expired" ∈ (evaluateAdmission (fun _ => false) badMarker STRICT 200000).reasons
    ∧ ("missing required module: " ++ "lineage")
        ∈ (evaluateAdmission (fun _ => false) badMarker STRICT 200000).reasons :=
  ⟨(spec_admitted_iff_reasons_empty _ badMarker STRICT 200000).1,
   (spec_admitted_iff_reasons_empty _ badMarker STRICT 200000).2.1 rfl rfl,
   (spec_admitted_iff_reasons_empty _ badMarker STRICT 200000).2.2.1
     (by decide) (by decide),
   (spec_admitted_iff_reasons_empty _ badMarker STRICT 200000).2.2.2.1
     86400 rfl (by decide),
   (spec_admitted_iff_reasons_empty _ badMarker STRICT 200000).2.2.2.2.1
     "lineage" (by decide) (by decide)⟩

/-- Claim C8: an arrival whose `exitMarkerId` differs from the exit id
yields `continuity.valid = false` with the reference-mismatch error, even
when both signatures individually verify (the conclusion holds for every
`sv`/`av`); and for every arrival value, `verified` is the conjunction of
both signature checks with continuity validity. -/
theorem spec_continuity_reference_mismatch
    (sv : ExitMarker → Bool) (av : ArrivalValue → Bool) (e : ExitMarker)
    (a : ArrivalMarker) (b : ArrivalValue)
    (hmis : a.exitMarkerId ≠ e.id) :
    (verifyTransfer sv av e a.toValue).continuity.valid = false
    ∧ "arrival does not reference this exit"
        ∈ (verifyTransfer sv av e a.toValue).continuity.errors
    ∧ (verifyTransfer sv av e b).verified
        = (sv e && av b && (verifyTransfer sv av e b).continuity.valid) := by
  refine ⟨?_, ?_, ?_⟩
  · simp [verifyTransfer, ArrivalMarker.toValue, hmis]
  · simp [verifyTransfer, ArrivalMarker.toValue, hmis]
  · cases hsv : sv e <;> cases hav : av b <;>
      simp [verifyTransfer, hsv, hav, Bool.and_assoc]

/-- Claim C8 witness: concrete mismatching arrival with both signature
checks passing. -/
theorem spec_continuity_reference_mismatch_witness :
    (verifyTransfer (fun _ => true) (fun _ => true) goodMarker
        (ArrivalMarker.toValue
          { exitMarkerId := "exit:other", destination := "did:example:dest"
          , timestamp := 5, signature := "asig" })).continuity.valid = false
    ∧ "arrival does not reference this exit"
        ∈ (verifyTransfer (fun _ => true) (fun _ => true) goodMarker
            (ArrivalMarker.toValue
              { exitMarkerId := "exit:other", destination := "did:example:dest"
              , timestamp := 5, signature := "asig" })).continuity.errors
    ∧ (verifyTransfer (fun _ => true) (fun _ => true) goodMarker
        (ArrivalMarker.toValue
          { exitMarkerId := "exit:other", destination := "did:example:dest"
          , timestamp := 5, signature := "asig" })).verified
      = ((fun (_ : ExitMarker) => true) goodMarker
          && (fun (_ : ArrivalValue) => true)
              (ArrivalMarker.toValue
                { exitMarkerId := "exit:other", destination := "did:example:dest"
                , timestamp := 5, signature := "asig" })
          && (verifyTransfer (fun _ => true) (fun _ => true) goodMarker
              (ArrivalMarker.toValue
                { exitMarkerId := "exit:other", destination := "did:example:dest"
                , timestamp := 5, signature := "asig" })).continuity.valid) :=
  spec_continuity_reference_mismatch (fun _ => true) (fun _ => true) goodMarker
    { exitMarkerId := "exit:other", destination := "did:example:dest"
    , timestamp := 5, signature := "asig" }
    (ArrivalMarker.toValue
      { exitMarkerId := "exit:other", destination := "did:example:dest"
      , timestamp := 5, signature := "asig" })
    (by decide)

/-- Claim C10: in the `verify_transfer` handler only the exit marker goes
through the validating codec; the arrival argument is plain parsed JSON:
for every JSON value - of any shape, missing every required field - the
handler succeeds (no decode error) and hands exactly that parsed value to
`verifyTransfer`. -/
theorem spec_arrival_not_validated
    (c : Collab) (exitJson aJson : Json) (m : ExitMarker)
    (hdec : fromJSON exitJson = Except.ok m) :
    verify_transfer_handler c exitJson aJson
      = VTResult.ok (verifyTransfer c.sv c.av m (arrivalOfJson aJson)).verified
          (verifyTransfer c.sv c.av m (arrivalOfJson aJson)).transferTime
          (verifyTransfer c.sv c.av m (arrivalOfJson aJson)).errors
          (verifyTransfer c.sv c.av m (arrivalOfJson aJson)).continuity := by
  unfold verify_transfer_handler
  rw [hdec]

/-- Claim C10 witness: the empty JSON object - missing every
ArrivalMarker field - is accepted and reaches `verifyTransfer`. -/
theorem spec_arrival_not_validated_witness :
    verify_transfer_handler collabW goodMarkerJson (Json.obj [])
      = VTResult.ok
          (verifyTransfer collabW.sv collabW.av goodMarker (arrivalOfJson (Json.obj []))).verified
          (verifyTransfer collabW.sv collabW.av goodMarker (arrivalOfJson (Json.obj []))).transferTime
          (verifyTransfer collabW.sv collabW.av goodMarker (arrivalOfJson (Json.obj []))).errors
          (verifyTransfer collabW.sv collabW.av goodMarker (arrivalOfJson (Json.obj []))).continuity :=
  spec_arrival_not_validated collabW goodMarkerJson (Json.obj []) goodMarker rfl

/-- Every exit-type rendering is a fixed server string. -/
theorem exitTypeStr_mem_const (et : ExitType) : exitTypeStr et ∈ constStrings := by
  cases et <;> simp [exitTypeStr, constStrings, listPoliciesAtoms]

/-- Every policy-name rendering is a fixed server string. -/
theorem policyNameStr_mem_const (pn : PolicyName) : policyNameStr pn ∈ constStrings := by
  cases pn <;> simp [policyNameStr, constStrings, listPoliciesAtoms]

/-- Every admission reason is one of the three fixed check strings or a
missing-module string for a required module of the policy. -/
theorem evaluateAdmission_reason_shape (sv : ExitMarker → Bool)
    (m : ExitMarker) (p : AdmissionPolicy) (now : Int) :
    ∀ s ∈ (evaluateAdmission sv m p now).reasons,
      s = "signature invalid" ∨ s = "exit type not permitted"
      ∨ s = "marker expired"
      ∨ ∃ name, name ∈ p.requiredModules ∧ s = "missing required module: " ++ name := by
  intro s hs
  simp only [evaluateAdmission, List.mem_append] at hs
  rcases hs with ((h | h) | h) | h
  · split at h <;> simp_all
  · split at h <;> simp_all
  · rcases hp : p.maxAgeSeconds with _ | a <;> rw [hp] at h
    · simp at h
    · split at h <;> simp_all
  · obtain ⟨name, hn, hv⟩ := List.mem_filterMap.mp h
    split at hv
    · exact absurd hv (by simp)
    · refine Or.inr (Or.inr (Or.inr ⟨name, hn, ?_⟩))
      exact (Option.some.inj hv).symm

/-- Every admission reason produced under a preset policy is a fixed
server string. -/
theorem preset_reasons_mem_const (sv : ExitMarker → Bool) (m : ExitMarker)
    (now : Int) (pn : PolicyName) :
    ∀ s ∈ (evaluateAdmission sv m (admissionPresets pn) now).reasons,
      s ∈ constStrings := by
  intro s hs
  rcases evaluateAdmission_reason_shape sv m (admissionPresets pn) now s hs with
    rfl | rfl | rfl | ⟨name, hn, rfl⟩
  · simp [constStrings, listPoliciesAtoms]
  · simp [constStrings, listPoliciesAtoms]
  · simp [constStrings, listPoliciesAtoms]
  · cases pn
    · simp [admissionPresets, OPEN_DOOR] at hn
    · simp [admissionPresets, STRICT] at hn
      rcases hn with rfl | rfl <;> simp [constStrings, listPoliciesAtoms]
    · simp [admissionPresets, EMERGENCY_ONLY] at hn

/-- Every transfer error is one of the two fixed signature error strings,
and every continuity error one of the two fixed continuity strings. -/
theorem verifyTransfer_error_shape (sv : ExitMarker → Bool)
    (av : ArrivalValue → Bool) (e : ExitMarker) (a : ArrivalValue) :
    (∀ s ∈ (verifyTransfer sv av e a).errors,
      s = "exit marker signature invalid" ∨ s = "arrival marker signature invalid")
    ∧ (∀ s ∈ (verifyTransfer sv av e a).continuity.errors,
      s = "arrival does not reference this exit" ∨ s = "arrival precedes departure") := by
  constructor <;> intro s hs <;>
    simp only [verifyTransfer, List.mem_append] at hs <;>
    rcases hs with h | h <;>
    split at h <;> simp_all

/-- Every transfer error is a fixed server string. -/
theorem transfer_errors_mem_const (sv : ExitMarker → Bool)
    (av : ArrivalValue → Bool) (e : ExitMarker) (a : ArrivalValue) :
    (∀ s ∈ (verifyTransfer sv av e a).errors, s ∈ constStrings)
    ∧ (∀ s ∈ (verifyTransfer sv av e a).continuity.errors, s ∈ constStrings) := by
  constructor <;> intro s hs
  · rcases (verifyTransfer_error_shape sv av e a).1 s hs with rfl | rfl <;>
      simp [constStrings, listPoliciesAtoms]
  · rcases (verifyTransfer_error_shape sv av e a).2 s hs with rfl | rfl <;>
      simp [constStrings, listPoliciesAtoms]


/-- Characterization of `verify_and_admit` on a decode failure. -/
theorem verify_and_admit_handler_eq_err (c : Collab) (opts : ServerOptions)
    (now : Int) (j : Json) (d : String) (cp : Option PolicyName) (e : String)
    (hd : fromJSON j = Except.error e) :
    verify_and_admit_handler c opts now j d cp = VAResult.error e := by
  unfold verify_and_admit_handler
  rw [hd]

/-- Characterization of `verify_and_admit` on a decoded marker: the
refusal payload when not admitted, otherwise the arrival minted by
`quickEntry`. -/
theorem verify_and_admit_handler_eq_ok (c : Collab) (opts : ServerOptions)
    (now : Int) (j : Json) (d : String) (cp : Option PolicyName)
    (m : ExitMarker) (hd : fromJSON j = Except.ok m) :
    verify_and_admit_handler c opts now j d cp
      = (if (evaluateAdmission c.sv m (admissionPresets (resolveVA opts cp)) now).admitted
         then VAResult.admitted
            { exitMarkerId := m.id, destination := d, timestamp := now
            , signature := c.entrySig m.id d now } m.id
            (verifyTransfer c.sv c.av m
              (ArrivalMarker.toValue
                { exitMarkerId := m.id, destination := d, timestamp := now
                , signature := c.entrySig m.id d now })).continuity
         else VAResult.notAdmitted
            (evaluateAdmission c.sv m (admissionPresets (resolveVA opts cp)) now).reasons) := by
  unfold verify_and_admit_handler quickEntry
  rw [hd]

/-- Characterization of `evaluate_admission` on a decoded marker. -/
theorem evaluate_admission_handler_eq_ok (c : Collab) (opts : ServerOptions)
    (now : Int) (j : Json) (p : PolicyName) (m : ExitMarker)
    (hd : fromJSON j = Except.ok m) :
    evaluate_admission_handler c opts now j p
      = EAResult.ok
          (evaluateAdmission c.sv m (admissionPresets (resolveEA opts p)) now)
          (resolveEA opts p) := by
  unfold evaluate_admission_handler
  rw [hd]

/-- Claim C9: no tool response contains the session private key.  For any
string `k` that the external collaborators never emit (it is not a DID,
not a marker id, not a signature output), that does not occur in the
request inputs, and that is none of the fixed server strings - in
particular the private key of the session identity, which never leaves
the server - the string atoms of every tool response exclude `k`. -/
theorem spec_no_private_key_in_responses
    (c : Collab) (opts : ServerOptions) (st : SessionState) (now : Int)
    (origin : String) (exitType : Option ExitType) (reason : Option String)
    (markerJson exitJson aJson : Json) (destination : String)
    (cp : Option PolicyName) (p : PolicyName) (k : String)
    (hgen : ∀ n, k ≠ (c.gen n).did)
    (hsess : ∀ i, st.sessionIdentity = some i → k ≠ i.did)
    (hmkId : ∀ a b t, k ≠ c.mkId a b t)
    (hsign : ∀ m kk, k ≠ c.signM m kk)
    (hentry : ∀ a b t, k ≠ c.entrySig a b t)
    (horigin : k ≠ origin)
    (hreason : ∀ s, reason = some s → k ≠ s)
    (hmj : ∀ m, fromJSON markerJson = Except.ok m → k ≠ m.subject ∧ k ≠ m.id)
    (hmje : ∀ e, fromJSON markerJson = Except.error e → k ≠ e)
    (hej : ∀ m, fromJSON exitJson = Except.ok m → k ≠ m.id)
    (heje : ∀ e, fromJSON exitJson = Except.error e → k ≠ e)
    (hdest : k ≠ destination)
    (hconst : k ∉ constStrings) :
    k ∉ genIdAtoms (generate_identity_handler c st).1
    ∧ k ∉ quickExitAtoms (quick_exit_handler c st origin exitType reason now).1
    ∧ k ∉ createExitAtoms (create_exit_marker_handler c st origin exitType reason now).1
    ∧ k ∉ verifyExitAtoms (verify_exit_marker_handler c markerJson)
    ∧ k ∉ vaAtoms (verify_and_admit_handler c opts now exitJson destination cp)
    ∧ k ∉ eaAtoms (evaluate_admission_handler c opts now exitJson p)
    ∧ k ∉ vtAtoms (verify_transfer_handler c exitJson aJson)
    ∧ k ∉ listPoliciesAtoms := by
  have hcs : ∀ s, s ∈ constStrings → k ≠ s := by
    intro s hscs h
    exact hconst (h ▸ hscs)
  have hexit : ∀ et, k ≠ exitTypeStr et :=
    fun et => hcs _ (exitTypeStr_mem_const et)
  refine ⟨?_, ?_, ?_, ?_, ?_, ?_, ?_, ?_⟩
  · -- generate_identity: did and fixed message only
    intro hk
    simp [generate_identity_handler, genIdAtoms] at hk
    rcases hk with h | h
    · exact hgen _ h
    · exact hcs genIdMessage (by simp [constStrings]) h
  · -- quick_exit: fresh identity marker and DID
    intro hk
    simp [quick_exit_handler, quickExit, createMarker, signMarker,
      quickExitAtoms, markerAtoms] at hk
    rcases hk with h | h | h | h | h | h | h
    · exact hmkId _ _ _ h
    · exact hgen _ h
    · exact horigin h
    · exact hexit _ h
    · exact hreason k h rfl
    · exact hsign _ _ h
    · exact hgen _ h
  · -- create_exit_marker: session (or fresh) identity marker and DID
    intro hk
    cases hsi : st.sessionIdentity with
    | some i =>
      simp [create_exit_marker_handler, hsi, createMarker, signMarker,
        createExitAtoms, markerAtoms] at hk
      rcases hk with h | h | h | h | h
      · exact hmkId _ _ _ h
      · exact horigin h
      · exact hexit _ h
      · exact hsign _ _ h
      · exact hsess i hsi h
    | none =>
      simp [create_exit_marker_handler, hsi, createMarker, signMarker,
        createExitAtoms, markerAtoms] at hk
      rcases hk with h | h | h | h | h
      · exact hmkId _ _ _ h
      · exact horigin h
      · exact hexit _ h
      · exact hsign _ _ h
      · exact hgen _ h
  · -- verify_exit_marker: echoes decoded public fields
    intro hk
    cases hd : fromJSON markerJson with
    | ok m =>
      simp [verify_exit_marker_handler, hd, verifyExitAtoms] at hk
      rcases hk with h | h | h
      · exact (hmj m hd).1 h
      · exact hexit _ h
      · exact (hmj m hd).2 h
    | error e =>
      simp [verify_exit_marker_handler, hd, verifyExitAtoms] at hk
      exact hmje e hd hk
  · -- verify_and_admit: refusal reasons or minted arrival
    intro hk
    cases hd : fromJSON exitJson with
    | ok m =>
      rw [verify_and_admit_handler_eq_ok c opts now exitJson destination cp m hd] at hk
      split at hk
      · simp [vaAtoms] at hk
        rcases hk with h | h | h | h | h
        · exact hej m hd h
        · exact hdest h
        · exact hentry _ _ _ h
        · exact hej m hd h
        · exact hcs _ ((transfer_errors_mem_const c.sv c.av m _).2 k h) rfl
      · simp [vaAtoms] at hk
        exact hcs _ (preset_reasons_mem_const c.sv m now _ k hk) rfl
    | error e =>
      rw [verify_and_admit_handler_eq_err c opts now exitJson destination cp e hd] at hk
      simp [vaAtoms] at hk
      exact heje e hd hk
  · -- evaluate_admission: reasons and policy name
    intro hk
    cases hd : fromJSON exitJson with
    | ok m =>
      rw [evaluate_admission_handler_eq_ok c opts now exitJson p m hd] at hk
      simp [eaAtoms] at hk
      rcases hk with h | h
      · exact hcs _ (preset_reasons_mem_const c.sv m now _ k h) rfl
      · exact hcs _ (policyNameStr_mem_const _) h
    | error e =>
      simp [evaluate_admission_handler, hd, eaAtoms] at hk
      exact heje e hd hk
  · -- verify_transfer: fixed error strings only
    intro hk
    cases hd : fromJSON exitJson with
    | ok m =>
      simp [verify_transfer_handler, hd, vtAtoms] at hk
      rcases hk with h | h
      · exact hcs _ ((transfer_errors_mem_const c.sv c.av m _).1 k h) rfl
      · exact hcs _ ((transfer_errors_mem_const c.sv c.av m _).2 k h) rfl
    | error e =>
      simp [verify_transfer_handler, hd, vtAtoms] at hk
      exact heje e hd hk
  · -- list_admission_policies: fixed strings only
    intro hk
    apply hconst
    unfold constStrings
    exact List.mem_append_right _ hk

/-- Claim C9 witness setup: concrete collaborator whose private key is the
fixed string used in the witness. -/
def collabK : Collab :=
  { gen := fun _ =>
      { did := "did:key:zK", publicKey := "pubK", privateKey := "PRIVATEKEY" }
  , mkId := fun _ _ _ => "exit:k"
  , signM := fun _ _ => "sigk"
  , entrySig := fun _ _ _ => "asigk"
  , sv := fun _ => true
  , av := fun _ => true }

/-- Claim C9 witness: on the concrete session, the private key string of
the session identity appears in no tool response. -/
theorem spec_no_private_key_in_responses_witness :
    "PRIVATEKEY" ∉ genIdAtoms
        (generate_identity_handler collabK { sessionIdentity := none, fresh := 0 }).1
    ∧ "PRIVATEKEY" ∉ quickExitAtoms
        (quick_exit_handler collabK { sessionIdentity := none, fresh := 0 }
          "did:example:a" none none 0).1
    ∧ "PRIVATEKEY" ∉ vaAtoms
        (verify_and_admit_handler collabK { serverPolicy := none } 0
          goodMarkerJson "did:example:dest" none) := by
  have h := spec_no_private_key_in_responses collabK { serverPolicy := none }
    { sessionIdentity := none, fresh := 0 } 0 "did:example:a" none none
    goodMarkerJson goodMarkerJson (Json.obj []) "did:example:dest" none
    .OPEN_DOOR "PRIVATEKEY"
    (fun _ => by simp [collabK])
    (fun i hi => by simp at hi)
    (fun _ _ _ => by simp [collabK])
    (fun _ _ => by simp [collabK])
    (fun _ _ _ => by simp [collabK])
    (by decide)
    (fun s hs => by simp at hs)
    (fun m hm => by
      have hm2 : Except.ok goodMarker = Except.ok m := hm
      injection hm2 with hm3
      subst hm3
      exact ⟨by decide, by decide⟩)
    (fun e he => by
      have he2 : Except.ok goodMarker = Except.error e := he
      exact Except.noConfusion he2)
    (fun m hm => by
      have hm2 : Except.ok goodMarker = Except.ok m := hm
      injection hm2 with hm3
      subst hm3
      exact by decide)
    (fun e he => by
      have he2 : Except.ok goodMarker = Except.error e := he
      exact Except.noConfusion he2)
    (by decide)
    (by decide)
  exact ⟨h.1, h.2.1, h.2.2.2.2.1⟩
